import Mathlib

/-!
Verification development for the REST resource-client core reconstructed by
the specification of `cha16-06_REST_APIs_Tutorial.py`, together with a direct
embedding of the status checks that the tutorial script itself performs.

The repository source is a linear tutorial script: it issues one GET, two
POSTs, one PUT, one PATCH and one DELETE against a demo JSON API and branches
manually on `status_code` and `reason`. The specification (spec.md section 1)
reconstructs from that repeated pattern a generic Resource Client with a
uniform response-classification algorithm (section 4.1). The first part of
this file models that client faithfully from the specification text, since no
such component exists in the source; the second part embeds, verbatim, the
manual checks the script does perform (lines 275, 367, 450, 474-493, 517,
552-562), which ground the implicit claims about the code as written.
-/

namespace Rest

/-- JSON values as the tutorial manipulates them: null, booleans, numbers,
strings, arrays and objects, an object being an ordered list of key-value
pairs exactly as a decoded Python dict presents them. Numbers are modelled as
integers, which covers every literal in the script (ids, userIds). -/
inductive Json where
  | null : Json
  | bool (b : Bool) : Json
  | num (n : Int) : Json
  | str (s : String) : Json
  | arr (xs : List Json) : Json
  | obj (fields : List (String × Json)) : Json

/-- Field lookup in a key-value list, first match wins, as in a Python dict
materialised from JSON (later duplicate keys do not occur in decoded dicts). -/
def lookupKey (k : String) : List (String × Json) → Option Json
  | [] => none
  | (a, v) :: t => if k = a then some v else lookupKey k t

/-- Field access on a JSON value: `resp_py["userId"]` in the script. Only
objects have fields. -/
def getField (j : Json) (k : String) : Option Json :=
  match j with
  | .obj fields => lookupKey k fields
  | _ => none

/-- Modelled from the spec: JSON text encoding and decoding are an external
library capability (spec.md section 1 places them out of scope, section 6
fixes UTF-8 JSON text bodies). A transport-level body is therefore
represented by what that library makes of it: either text that decodes to a
JSON value, or text that is not JSON. -/
inductive Body where
  | jsonText (j : Json) : Body
  | rawText (s : String) : Body

/-- Decoding a body with the external JSON library: succeeds exactly on
bodies that are JSON text. This is the `json.loads(response.text)` step of
the script, returned as an option instead of raising. -/
def decodeJson : Body → Option Json
  | .jsonText j => some j
  | .rawText _ => none

/-- Modelled from the spec: the Request Intent of section 3, one of List,
Get, Create, Replace, Update, Delete. -/
inductive Intent where
  | list : Intent
  | get : Intent
  | create : Intent
  | replace : Intent
  | update : Intent
  | delete : Intent
deriving DecidableEq

/-- HTTP methods used by the five CRUD operations (spec.md section 3). -/
inductive Method where
  | GET : Method
  | POST : Method
  | PUT : Method
  | PATCH : Method
  | DELETE : Method
deriving DecidableEq

/-- Modelled from the spec: the request handed to the Transport Port
(section 6): method, endpoint path, and the optional attribute mapping that
the external JSON library serializes as the body. -/
structure Request where
  method : Method
  path : String
  body : Option Json

/-- Modelled from the spec: the response the Transport Port returns, status
code and raw body (headers the core never inspects are omitted). -/
structure Response where
  status : Nat
  body : Body

/-- Modelled from the spec: the failure taxonomy of section 7: Transport,
Redirection, ClientError, ServerError, Unexpected, DecodeError. -/
inductive FailKind where
  | transport : FailKind
  | redirection : FailKind
  | clientError : FailKind
  | serverError : FailKind
  | unexpected : FailKind
  | decodeError : FailKind
deriving DecidableEq

/-- Modelled from the spec: a Success payload is a Resource, a Collection,
or empty (section 3, Response Outcome). -/
inductive Payload where
  | resource (j : Json) : Payload
  | collection (xs : List Json) : Payload
  | empty : Payload

/-- Modelled from the spec: the tagged Response Outcome of section 3,
Success with payload and status, or Failure with kind, optional status and
optional raw body (a Transport failure has neither). -/
inductive Outcome where
  | success (p : Payload) (status : Nat) : Outcome
  | failure (k : FailKind) (status : Option Nat) (rawBody : Option Body) : Outcome

/-- Modelled from the spec: the status-range table of section 4.1 step 2 for
statuses outside the accepted success set: 300-399 Redirection, 400-499
ClientError, 500-599 ServerError, anything else (1xx or out of range)
Unexpected. -/
def statusFailKind (s : Nat) : FailKind :=
  if 300 ≤ s ∧ s ≤ 399 then .redirection
  else if 400 ≤ s ∧ s ≤ 499 then .clientError
  else if 500 ≤ s ∧ s ≤ 599 then .serverError
  else .unexpected

/-- Modelled from the spec: what a decoded JSON body materialises as, per
intent (section 3): a List intent materialises a Collection from a JSON
array, every other intent materialises a single Resource. -/
def payloadFor (i : Intent) (j : Json) : Payload :=
  match i, j with
  | .list, .arr xs => .collection xs
  | _, _ => .resource j

/-- Modelled from the spec: the response-classification algorithm of section
4.1 step 2-3, applied uniformly after every completed exchange. Delete
expects 200 or 204 and produces the empty payload regardless of body content
(sections 4.1 and 7); every other intent expects a body: in the 200-299
range it attempts the JSON decode, yielding Success on a decoded value and
Failure(DecodeError, status, raw body) otherwise; outside the accepted
statuses the range table gives the failure kind, with the raw body attached. -/
def classify (i : Intent) (r : Response) : Outcome :=
  if i = .delete then
    if r.status = 200 ∨ r.status = 204 then .success .empty r.status
    else .failure (statusFailKind r.status) (some r.status) (some r.body)
  else if 200 ≤ r.status ∧ r.status ≤ 299 then
    match decodeJson r.body with
    | some j => .success (payloadFor i j) r.status
    | none => .failure .decodeError (some r.status) (some r.body)
  else .failure (statusFailKind r.status) (some r.status) (some r.body)

/-- Modelled from the spec: section 4.1 step 1. A whole operation first runs
the exchange through the Transport Port; if the port fails the outcome is
Failure(Transport, none, none), otherwise the completed response is
classified. -/
def runExchange (i : Intent) (x : Option Response) : Outcome :=
  match x with
  | none => .failure .transport none none
  | some r => classify i r

lemma statusFailKind_redirection {s : Nat} (h1 : 300 ≤ s) (h2 : s ≤ 399) :
    statusFailKind s = .redirection := by
  unfold statusFailKind
  rw [if_pos ⟨h1, h2⟩]

lemma statusFailKind_clientError {s : Nat} (h1 : 400 ≤ s) (h2 : s ≤ 499) :
    statusFailKind s = .clientError := by
  unfold statusFailKind
  rw [if_neg (by omega), if_pos ⟨h1, h2⟩]

lemma statusFailKind_serverError {s : Nat} (h1 : 500 ≤ s) (h2 : s ≤ 599) :
    statusFailKind s = .serverError := by
  unfold statusFailKind
  rw [if_neg (by omega), if_neg (by omega), if_pos ⟨h1, h2⟩]

lemma statusFailKind_unexpected {s : Nat} (h : s ≤ 199) :
    statusFailKind s = .unexpected := by
  unfold statusFailKind
  rw [if_neg (by omega), if_neg (by omega), if_neg (by omega)]

lemma statusFailKind_ne_transport (s : Nat) : statusFailKind s ≠ .transport := by
  unfold statusFailKind
  split_ifs <;> simp

/-- Outside the 200-299 band every intent, delete included, maps the status
through the range table with the raw body attached. -/
lemma classify_failure_range (i : Intent) (s : Nat) (b : Body)
    (hs : ¬(200 ≤ s ∧ s ≤ 299)) :
    classify i ⟨s, b⟩ = .failure (statusFailKind s) (some s) (some b) := by
  have h1 : ¬(s = 200 ∨ s = 204) := by omega
  by_cases hi : i = .delete
  · simp [classify, hi, h1]
  · simp [classify, hi, hs]

/-- Modelled from the spec: the HTTP method bound to each Request Intent
(section 3): List and Get use GET, Create POST, Replace PUT, Update PATCH,
Delete DELETE. -/
def methodOf : Intent → Method
  | .list => .GET
  | .get => .GET
  | .create => .POST
  | .replace => .PUT
  | .update => .PATCH
  | .delete => .DELETE

/-- Modelled from the spec: the endpoint shape bound to each Request Intent
(sections 3 and 6): the collection path for List and Create, the item path
with the opaque id segment for the rest. -/
def endpointOf (i : Intent) (c : String) (id : String) : String :=
  match i with
  | .list => "/" ++ c
  | .create => "/" ++ c
  | _ => "/" ++ c ++ "/" ++ id

/-- Modelled from the spec: the body bound to each Request Intent (section
4.1): List, Get and Delete carry no body; Create, Replace and Update carry
the caller-supplied attribute mapping, handed as-is to the JSON serializer. -/
def bodyOf (i : Intent) (attrs : List (String × Json)) : Option Json :=
  match i with
  | .list => none
  | .get => none
  | .delete => none
  | _ => some (.obj attrs)

/-- Modelled from the spec: translation of a Request Intent plus
caller-supplied data into the single Transport exchange request (section
4.1, Resource Client responsibility). -/
def buildRequest (i : Intent) (c : String) (id : String)
    (attrs : List (String × Json)) : Request :=
  ⟨methodOf i, endpointOf i c id, bodyOf i attrs⟩

/-- A simulated backend store for one collection, id segment to resource, as
in the testable-properties scenarios of spec.md section 8. -/
abbrev Store := List (String × Json)

/-- Modelled from the spec: the simulated unchanged backend serving GET on
the item endpoint (section 8, idempotence scenario): a stored resource is
returned as a 200 with its JSON body, a missing one as a 404; serving a GET
never alters the store. -/
def serveGet (s : Store) (id : String) : Response × Store :=
  match lookupKey id s with
  | some j => (⟨200, .jsonText j⟩, s)
  | none => (⟨404, .rawText "Not Found"⟩, s)

/-- One full get(collection, id) operation against the simulated backend:
serve the GET, classify the response, return the outcome and the store the
backend is left with. -/
def runGet (s : Store) (id : String) : Outcome × Store :=
  ((classify .get (serveGet s id).1), (serveGet s id).2)

/-- Embedding of the response object the script inspects: the requests
library exposes status_code, reason and text on each response (src lines
275-276 and analogues). -/
structure PyResponse where
  status_code : Nat
  reason : String
  text : String

/-- Embedding of src line 275: the GET branch condition
status_code == 200 and reason == "OK". -/
def response_get_check (r : PyResponse) : Bool :=
  r.status_code == 200 && r.reason == "OK"

/-- Embedding of src line 367: the POST branch condition
status_code == 201 and reason == "Created". -/
def response_post_check (r : PyResponse) : Bool :=
  r.status_code == 201 && r.reason == "Created"

/-- Embedding of src line 474: the PUT branch condition
status_code == 200 and reason == "OK". -/
def response_put_check (r : PyResponse) : Bool :=
  r.status_code == 200 && r.reason == "OK"

/-- Embedding of src line 517: the PATCH branch condition
status_code == 200 and reason == "OK". -/
def response_patch_check (r : PyResponse) : Bool :=
  r.status_code == 200 && r.reason == "OK"

/-- Embedding of src line 552: the DELETE branch condition
status_code == 200 and reason == "OK". -/
def response_del_check (r : PyResponse) : Bool :=
  r.status_code == 200 && r.reason == "OK"

/-- Embedding of src lines 474-493, the PUT section branch. The first
argument is `response`, the preparatory GET response bound at src line 450;
the second is `response_put`. The result records which branch runs and the
status and reason the printed message interpolates: the condition tests
`response_put`, but the success message (lines 477-478) reads
`response.status_code` and `response.reason`, while the failure message
(lines 491-492) reads `response_put`. -/
def put_branch (response response_put : PyResponse) : Bool × Nat × String :=
  if response_put_check response_put then
    (true, response.status_code, response.reason)
  else
    (false, response_put.status_code, response_put.reason)

/-- Embedding of src lines 552-562, the DELETE section branch. The first
argument is `response`, still the preparatory GET response of src line 450
(the DELETE section binds no new `response`); the second is `response_del`.
The condition tests `response_del`, but the success message (lines 554-555)
reads `response.status_code` and `response.reason`, while the failure
message (lines 560-561) reads `response_del`. -/
def del_branch (response response_del : PyResponse) : Bool × Nat × String :=
  if response_del_check response_del then
    (true, response.status_code, response.reason)
  else
    (false, response_del.status_code, response_del.reason)

lemma lookupKey_append_self (l : List (String × Json)) (k : String) (v : Json)
    (h : lookupKey k l = none) : lookupKey k (l ++ [(k, v)]) = some v := by
  induction l with
  | nil => simp [lookupKey]
  | cons p t ih =>
    obtain ⟨a, w⟩ := p
    by_cases hk : k = a
    · simp [lookupKey, hk] at h
    · simp only [lookupKey, if_neg hk] at h
      simp only [List.cons_append, lookupKey, if_neg hk]
      exact ih h

lemma lookupKey_append_other (l : List (String × Json)) (k k2 : String)
    (v : Json) (h : k ≠ k2) :
    lookupKey k (l ++ [(k2, v)]) = lookupKey k l := by
  induction l with
  | nil => simp [lookupKey, h]
  | cons p t ih =>
    obtain ⟨a, w⟩ := p
    by_cases hk : k = a
    · simp [lookupKey, hk]
    · simp [lookupKey, hk, ih]

/-- The sample todo resource of src line 259, used to instantiate the
idempotent-get theorem at a concrete simulated backend. -/
def todoOne : Json :=
  .obj [("userId", .num 1), ("id", .num 1),
    ("title", .str "delectus aut autem"), ("completed", .bool false)]

/-- The Create payload of the spec section 8 scenario, matching the shape of
the todo posted at src line 357. -/
def milkTodo : List (String × Json) :=
  [("userId", .num 1), ("title", .str "Buy milk"), ("completed", .bool false)]

/-- C1: the response classification applied after every exchange is total
and deterministic over HTTP status codes. `classify` is a total function,
so each status yields exactly one outcome; for statuses 100-599 the ranges
map as the section 4.1 table states: 200-299 to Success for non-delete
intents whose body decodes as JSON, 300-399 to Failure(Redirection), 400-499
to Failure(ClientError), 500-599 to Failure(ServerError), and any other
status (here 100-199) to Failure(Unexpected); no status ever produces the
Transport kind. -/
theorem classify_status_taxonomy (s : Nat) (i : Intent) (b : Body)
    (h1 : 100 ≤ s) (h2 : s ≤ 599) :
    (200 ≤ s → s ≤ 299 → i ≠ .delete → ∀ j, decodeJson b = some j →
      classify i ⟨s, b⟩ = .success (payloadFor i j) s) ∧
    (300 ≤ s → s ≤ 399 →
      classify i ⟨s, b⟩ = .failure .redirection (some s) (some b)) ∧
    (400 ≤ s → s ≤ 499 →
      classify i ⟨s, b⟩ = .failure .clientError (some s) (some b)) ∧
    (500 ≤ s →
      classify i ⟨s, b⟩ = .failure .serverError (some s) (some b)) ∧
    (s ≤ 199 →
      classify i ⟨s, b⟩ = .failure .unexpected (some s) (some b)) ∧
    (∀ k so bo, classify i ⟨s, b⟩ = .failure k so bo → k ≠ .transport) := by
  refine ⟨?_, ?_, ?_, ?_, ?_, ?_⟩
  · intro ha hb hi j hj
    simp [classify, hi, ha, hb, hj]
  · intro ha hb
    rw [classify_failure_range i s b (by omega),
      statusFailKind_redirection ha hb]
  · intro ha hb
    rw [classify_failure_range i s b (by omega),
      statusFailKind_clientError ha hb]
  · intro ha
    rw [classify_failure_range i s b (by omega),
      statusFailKind_serverError ha h2]
  · intro ha
    rw [classify_failure_range i s b (by omega),
      statusFailKind_unexpected ha]
  · intro k so bo h
    by_cases hi : i = .delete
    · by_cases hq : s = 200 ∨ s = 204
      · simp [classify, hi, hq] at h
      · simp [classify, hi, hq] at h
        rw [← h.1]
        exact statusFailKind_ne_transport s
    · by_cases hr : 200 ≤ s ∧ s ≤ 299
      · cases hd : decodeJson b with
        | some j => simp [classify, hi, hr, hd] at h
        | none =>
          simp [classify, hi, hr, hd] at h
          rw [← h.1]
          simp
      · simp [classify, hi, hr] at h
        rw [← h.1]
        exact statusFailKind_ne_transport s

/-- Concrete instance of the taxonomy: a 404 on a get classifies as
Failure(ClientError, 404, raw body). -/
theorem classify_status_taxonomy_witness :
    classify .get ⟨404, .rawText "err"⟩ =
      .failure .clientError (some 404) (some (.rawText "err")) :=
  (classify_status_taxonomy 404 .get (.rawText "err") (by decide)
    (by decide)).2.2.1 (by decide) (by decide)

/-- C2: a delete classifies a 200 response, whatever its body, and a 204
response as Success with the empty payload; any other status yields the
failure kind the section 4.1 range table assigns to it, with status and raw
body attached; and no delete success ever carries a payload other than
empty, in particular never a Resource. -/
theorem delete_success_tolerance (b : Body) (s : Nat)
    (h200 : s ≠ 200) (h204 : s ≠ 204) :
    classify .delete ⟨200, b⟩ = .success .empty 200 ∧
    classify .delete ⟨204, b⟩ = .success .empty 204 ∧
    classify .delete ⟨s, b⟩ = .failure (statusFailKind s) (some s) (some b) ∧
    (∀ r p st, classify .delete r = .success p st → p = .empty) := by
  refine ⟨by simp [classify], by simp [classify], ?_, ?_⟩
  · simp [classify, h200, h204]
  · intro r p st h
    obtain ⟨rs, rb⟩ := r
    by_cases hq : rs = 200 ∨ rs = 204
    · simp [classify, hq] at h
      exact h.1.symm
    · simp [classify, hq] at h

/-- Concrete instance: delete tolerates a 200 with an empty body as Success
with empty payload, and a 500 classifies as the server-error failure. -/
theorem delete_success_tolerance_witness :
    classify .delete ⟨200, .rawText ""⟩ = .success .empty 200 ∧
    classify .delete ⟨500, .rawText ""⟩ =
      .failure (statusFailKind 500) (some 500) (some (.rawText "")) :=
  ⟨(delete_success_tolerance (.rawText "") 500 (by decide) (by decide)).1,
   (delete_success_tolerance (.rawText "") 500 (by decide)
     (by decide)).2.2.1⟩

/-- C3: when a payload-expecting intent receives a success-range status with
a body the JSON library cannot decode, classification returns
Failure(DecodeError, status, raw body) as an ordinary Outcome value (the
classification is a total function into Outcome, nothing escapes it), and
that outcome is never the Transport failure. -/
theorem decode_failure_returned (s : Nat) (b : Body) (i : Intent)
    (h1 : 200 ≤ s) (h2 : s ≤ 299) (hi : i ≠ .delete)
    (hb : decodeJson b = none) :
    classify i ⟨s, b⟩ = .failure .decodeError (some s) (some b) ∧
    ∀ so bo, classify i ⟨s, b⟩ ≠ .failure .transport so bo := by
  have hm : classify i ⟨s, b⟩ = .failure .decodeError (some s) (some b) := by
    simp [classify, hi, h1, h2, hb]
  refine ⟨hm, ?_⟩
  intro so bo hcon
  rw [hm] at hcon
  simp at hcon

/-- Concrete instance, the decode-failure scenario of spec section 8: a 200
whose body is an HTML page classifies as Failure(DecodeError, 200, body). -/
theorem decode_failure_returned_witness :
    classify .get ⟨200, .rawText "<html>not json</html>"⟩ =
      .failure .decodeError (some 200)
        (some (.rawText "<html>not json</html>")) :=
  (decode_failure_returned 200 (.rawText "<html>not json</html>") .get
    (by decide) (by decide) (by decide) rfl).1

/-- C4: for every Create payload lacking an id field, a simulated 201
response whose body is the payload with an id field appended classifies as
Success of a Resource whose id field is the simulated id and whose every
other field equals the corresponding field of the request payload; the
round trip through the encode and decode steps is the identity on the
attribute mapping. -/
theorem create_roundtrip (attrs : List (String × Json)) (idv : Json)
    (h : lookupKey "id" attrs = none) :
    classify .create ⟨201, .jsonText (.obj (attrs ++ [("id", idv)]))⟩ =
      .success (.resource (.obj (attrs ++ [("id", idv)]))) 201 ∧
    getField (.obj (attrs ++ [("id", idv)])) "id" = some idv ∧
    ∀ k, k ≠ "id" →
      getField (.obj (attrs ++ [("id", idv)])) k = lookupKey k attrs := by
  refine ⟨rfl, ?_, ?_⟩
  · simpa [getField] using lookupKey_append_self attrs "id" idv h
  · intro k hk
    simpa [getField] using lookupKey_append_other attrs k "id" idv hk

/-- Concrete instance, the Create scenario of spec section 8: posting the
Buy-milk todo and simulating a 201 whose body adds id 201 yields a Success
Resource whose id field is 201. -/
theorem create_roundtrip_witness :
    classify .create
        ⟨201, .jsonText (.obj (milkTodo ++ [("id", Json.num 201)]))⟩ =
      .success (.resource (.obj (milkTodo ++ [("id", Json.num 201)]))) 201 ∧
    getField (.obj (milkTodo ++ [("id", Json.num 201)])) "id" =
      some (Json.num 201) :=
  ⟨(create_roundtrip milkTodo (Json.num 201) rfl).1,
   (create_roundtrip milkTodo (Json.num 201) rfl).2.1⟩

/-- C5: a replace request is a PUT on the item endpoint whose body is
exactly the caller-supplied attribute mapping handed to the JSON serializer;
the client merges nothing and adds no field of its own, so field lookup on
the body object coincides with lookup in the caller mapping. -/
theorem replace_body_exact (c id : String) (attrs : List (String × Json)) :
    (buildRequest .replace c id attrs).method = .PUT ∧
    (buildRequest .replace c id attrs).path = "/" ++ c ++ "/" ++ id ∧
    (buildRequest .replace c id attrs).body = some (.obj attrs) ∧
    ∀ k, getField (.obj attrs) k = lookupKey k attrs :=
  ⟨rfl, rfl, rfl, fun _ => rfl⟩

/-- C6: an update request is a PATCH whose body is exactly the
caller-supplied partial mapping: whatever body the Transport Port is handed
equals the caller mapping, and any field absent from the call is absent from
the body object, so the client never infers unchanged fields. -/
theorem update_body_exact (c id : String) (attrs : List (String × Json))
    (bj : Json) (hb : (buildRequest .update c id attrs).body = some bj) :
    (buildRequest .update c id attrs).method = .PATCH ∧
    bj = .obj attrs ∧
    ∀ k, lookupKey k attrs = none → getField bj k = none := by
  simp only [buildRequest, bodyOf, Option.some.injEq] at hb
  subst hb
  refine ⟨rfl, rfl, ?_⟩
  intro k hk
  simpa [getField] using hk

/-- Concrete instance, the PATCH payload of src line 512: the update body is
exactly the single-field title mapping and contains no other field. -/
theorem update_body_exact_witness :
    (buildRequest .update "todos" "10"
        [("title", Json.str "Happy Happy")]).method = .PATCH ∧
    Json.obj [("title", Json.str "Happy Happy")] =
      .obj [("title", Json.str "Happy Happy")] ∧
    ∀ k, lookupKey k [("title", Json.str "Happy Happy")] = none →
      getField (Json.obj [("title", Json.str "Happy Happy")]) k = none :=
  update_body_exact "todos" "10" [("title", Json.str "Happy Happy")]
    (Json.obj [("title", Json.str "Happy Happy")]) rfl

/-- C7: every Failure that classification produces carries the status and
the raw, undiscarded body of the response it classified, so a caller can
still extract server-supplied diagnostic detail from a failure such as
Failure(ClientError, 422, body). -/
theorem failure_preserves_raw_body (i : Intent) (r : Response) (k : FailKind)
    (so : Option Nat) (bo : Option Body)
    (h : classify i r = .failure k so bo) :
    so = some r.status ∧ bo = some r.body := by
  obtain ⟨s, b⟩ := r
  by_cases hi : i = .delete
  · by_cases hq : s = 200 ∨ s = 204
    · simp [classify, hi, hq] at h
    · simp [classify, hi, hq] at h
      exact ⟨h.2.1.symm, h.2.2.symm⟩
  · by_cases hr : 200 ≤ s ∧ s ≤ 299
    · cases hd : decodeJson b with
      | some j => simp [classify, hi, hr, hd] at h
      | none =>
        simp [classify, hi, hr, hd] at h
        exact ⟨h.2.1.symm, h.2.2.symm⟩
    · simp [classify, hi, hr] at h
      exact ⟨h.2.1.symm, h.2.2.symm⟩

/-- Concrete instance, the 422 example of spec section 7: the client-error
failure carries the status 422 and the raw body of that very response. -/
theorem failure_preserves_raw_body_witness :
    (some 422 : Option Nat) = some (Response.mk 422 (.rawText "e")).status ∧
    (some (Body.rawText "e") : Option Body) =
      some (Response.mk 422 (.rawText "e")).body :=
  failure_preserves_raw_body .get ⟨422, .rawText "e"⟩ .clientError
    (some 422) (some (.rawText "e")) rfl

/-- C8: a get against the simulated backend leaves the store unchanged, a
second identical get returns the identical outcome, and a stored resource
comes back as a Success carrying the bit-identical decoded Resource. -/
theorem get_idempotent (s : Store) (id : String) :
    (runGet s id).2 = s ∧
    runGet ((runGet s id).2) id = runGet s id ∧
    ∀ j, lookupKey id s = some j →
      (runGet s id).1 = .success (.resource j) 200 := by
  have hst : (runGet s id).2 = s := by
    cases h : lookupKey id s
    · simp [runGet, serveGet, h]
    · simp [runGet, serveGet, h]
  refine ⟨hst, by rw [hst], ?_⟩
  intro j hj
  have hrun : runGet s id = (classify .get ⟨200, .jsonText j⟩, s) := by
    simp [runGet, serveGet, hj]
  rw [hrun]
  rfl

/-- Concrete instance: getting todo 1 twice from the one-item simulated
store yields the same Success(Resource) both times and leaves the store as
it was. -/
theorem get_idempotent_witness :
    (runGet [("1", todoOne)] "1").2 = [("1", todoOne)] ∧
    runGet ((runGet [("1", todoOne)] "1").2) "1" =
      runGet [("1", todoOne)] "1" ∧
    (runGet [("1", todoOne)] "1").1 = .success (.resource todoOne) 200 :=
  ⟨(get_idempotent [("1", todoOne)] "1").1,
   (get_idempotent [("1", todoOne)] "1").2.1,
   (get_idempotent [("1", todoOne)] "1").2.2 todoOne rfl⟩

/-- C9: each of the status checks of the script (GET line 275, POST line
367, PATCH line 517, DELETE line 552) passes exactly when the numeric
status equals the expected value and the reason string equals the expected
phrase, so a success status paired with any other reason string takes the
unsuccessful branch. -/
theorem reason_checked_with_status (r : PyResponse) :
    (response_get_check r = true ↔
      r.status_code = 200 ∧ r.reason = "OK") ∧
    (response_post_check r = true ↔
      r.status_code = 201 ∧ r.reason = "Created") ∧
    (response_patch_check r = true ↔
      r.status_code = 200 ∧ r.reason = "OK") ∧
    (response_del_check r = true ↔
      r.status_code = 200 ∧ r.reason = "OK") ∧
    (∀ reason2, reason2 ≠ "OK" →
      response_get_check ⟨200, reason2, r.text⟩ = false) := by
  refine ⟨?_, ?_, ?_, ?_, ?_⟩
  · simp [response_get_check]
  · simp [response_post_check]
  · simp [response_patch_check]
  · simp [response_del_check]
  · intro reason2 h2
    simp [response_get_check, h2]

/-- Concrete instance: a 200 whose reason is the lowercase string ok fails
the GET success check. -/
theorem reason_checked_with_status_witness :
    response_get_check ⟨200, "ok", ""⟩ = false :=
  (reason_checked_with_status ⟨200, "ok", ""⟩).2.2.2.2 "ok" (by decide)

/-- C10: whenever the PUT branch (src lines 474-493) or the DELETE branch
(src lines 552-562) takes its success path, the status and reason it
reports are those of `response`, the preparatory GET exchange of src line
450, not those of the PUT or DELETE response the condition tested. -/
theorem report_uses_prior_get_response (g p d : PyResponse) :
    ((put_branch g p).1 = true →
      (put_branch g p).2 = (g.status_code, g.reason)) ∧
    ((del_branch g d).1 = true →
      (del_branch g d).2 = (g.status_code, g.reason)) := by
  constructor
  · intro h
    by_cases hc : response_put_check p = true
    · simp [put_branch, hc]
    · simp [put_branch, hc] at h
  · intro h
    by_cases hc : response_del_check d = true
    · simp [del_branch, hc]
    · simp [del_branch, hc] at h

/-- Concrete instance: with the preparatory GET having answered 404 Not
Found and the PUT answering 200 OK, the success branch runs yet reports
404 Not Found, the status of the earlier GET exchange. -/
theorem report_uses_prior_get_response_witness :
    (put_branch ⟨404, "Not Found", ""⟩ ⟨200, "OK", ""⟩).2 =
      (404, "Not Found") :=
  (report_uses_prior_get_response ⟨404, "Not Found", ""⟩ ⟨200, "OK", ""⟩
    ⟨200, "OK", ""⟩).1 rfl

end Rest
